import Mathlib

/-!
# Verification of the attendance bot core (Go repository `attendance_bot_go`)

Shallow embedding of the TOTP credential engine (`internal/attendance/totp.go`),
the attendance service (`internal/attendance/service.go`) and the repository layer
(`internal/database/repository.go`), together with the Go standard-library
primitives they call (SHA-1, HMAC, base32, big-endian encoding, fixed-zone time
formatting).  Go strings that carry codes and secrets are modelled as `List Char`
(ASCII); machine integers are modelled as `Int`/`Nat` with explicit wrap-around
where Go overflows or converts.
-/

set_option maxRecDepth 100000
set_option maxHeartbeats 4000000

namespace AttendanceBot

/-! ## Machine-word helpers (Go `uint32`/`uint64` arithmetic) -/

/-- Reduce a natural number to a Go `uint32` value. -/
def w32 (n : Nat) : Nat := n % 4294967296

/-- Go `bits.RotateLeft32`-style left rotation by `n` of a 32-bit word `w`. -/
def rotl32 (n w : Nat) : Nat := w32 ((w <<< n) ||| (w >>> (32 - n)))

/-- Go `binary.BigEndian.Uint32`: big-endian interpretation of a byte list. -/
def beUint32 (bs : List Nat) : Nat := bs.foldl (fun acc b => acc * 256 + b) 0

/-- Go `binary.BigEndian.PutUint64`: the 8 big-endian bytes of a `uint64` value. -/
def beBytes8 (n : Nat) : List Nat :=
  [n / 72057594037927936 % 256, n / 281474976710656 % 256, n / 1099511627776 % 256,
   n / 4294967296 % 256, n / 16777216 % 256, n / 65536 % 256, n / 256 % 256, n % 256]

/-- The 4 big-endian bytes of a 32-bit word. -/
def wordToBytes (w : Nat) : List Nat :=
  [w / 16777216 % 256, w / 65536 % 256, w / 256 % 256, w % 256]

/-! ## SHA-1 (Go `crypto/sha1`, per FIPS 180-4) -/

/-- SHA-1 round function `f_t(b,c,d)` (32-bit bitwise ops; `^^^ 4294967295` is
the 32-bit complement). -/
def sha1F (t b c d : Nat) : Nat :=
  if t < 20 then (b &&& c) ||| ((b ^^^ 4294967295) &&& d)
  else if t < 40 then b ^^^ c ^^^ d
  else if t < 60 then (b &&& c) ||| (b &&& d) ||| (c &&& d)
  else b ^^^ c ^^^ d

/-- SHA-1 round constants `K_t`. -/
def sha1K (t : Nat) : Nat :=
  if t < 20 then 1518500249
  else if t < 40 then 1859775393
  else if t < 60 then 2400959708
  else 3395469782

/-- Split a byte list into chunks of `n+1` bytes; `fuel` bounds the number of
chunks (structural recursion so the kernel can evaluate it). -/
def chunksAux (n : Nat) : Nat → List Nat → List (List Nat)
  | 0, _ => []
  | _, [] => []
  | fuel + 1, l => l.take (n + 1) :: chunksAux n fuel (l.drop (n + 1))

/-- Split a byte list into chunks of `n+1` bytes (used with 3 → 4-byte words and
63 → 64-byte blocks). -/
def chunks (n : Nat) (l : List Nat) : List (List Nat) := chunksAux n l.length l

/-- Extend the 16-word message schedule by `fuel` further words
(`W_t = ROTL1(W_{t-3} xor W_{t-8} xor W_{t-14} xor W_{t-16})`). -/
def sha1Extend (ws : List Nat) : Nat → List Nat
  | 0 => ws
  | fuel + 1 =>
    let len := ws.length
    let x := rotl32 1 ((ws.getD (len - 3) 0) ^^^ (ws.getD (len - 8) 0) ^^^
                       (ws.getD (len - 14) 0) ^^^ (ws.getD (len - 16) 0))
    sha1Extend (ws ++ [x]) fuel

/-- One SHA-1 round: state `(a,b,c,d,e)` updated with round index `t` and
schedule word `w`. -/
def sha1Round (st : Nat × Nat × Nat × Nat × Nat) (tw : Nat × Nat) :
    Nat × Nat × Nat × Nat × Nat :=
  let (a, b, c, d, e) := st
  let (t, w) := tw
  let tmp := w32 (rotl32 5 a + sha1F t b c d + e + sha1K t + w)
  (tmp, a, rotl32 30 b, c, d)

/-- SHA-1 compression of one 64-byte block into the running hash state. -/
def sha1Block (h : Nat × Nat × Nat × Nat × Nat) (block : List Nat) :
    Nat × Nat × Nat × Nat × Nat :=
  let ws := sha1Extend ((chunks 3 block).map beUint32) 64
  let st := ((List.range 80).zip ws).foldl sha1Round h
  (w32 (h.1 + st.1), w32 (h.2.1 + st.2.1), w32 (h.2.2.1 + st.2.2.1),
   w32 (h.2.2.2.1 + st.2.2.2.1), w32 (h.2.2.2.2 + st.2.2.2.2))

/-- SHA-1 message padding: `0x80`, zeros to 56 mod 64, 8-byte big-endian bit
length. -/
def sha1Pad (msg : List Nat) : List Nat :=
  msg ++ [128] ++ List.replicate ((64 + 55 - msg.length % 64) % 64) 0 ++
    beBytes8 (msg.length * 8)

/-- Serialize the final SHA-1 state as a 20-byte digest. -/
def sha1Out (h : Nat × Nat × Nat × Nat × Nat) : List Nat :=
  wordToBytes h.1 ++ wordToBytes h.2.1 ++ wordToBytes h.2.2.1 ++
    wordToBytes h.2.2.2.1 ++ wordToBytes h.2.2.2.2

/-- SHA-1 digest of a byte list (Go `sha1.Sum`). -/
def sha1 (msg : List Nat) : List Nat :=
  sha1Out ((chunks 63 (sha1Pad msg)).foldl sha1Block
    (1732584193, 4023233417, 2562383102, 271733878, 3285377520))

/-! ## HMAC-SHA1 (Go `crypto/hmac` with `sha1.New`, block size 64) -/

/-- HMAC-SHA1 of `msg` under `key` (RFC 2104, as implemented by Go
`hmac.New(sha1.New, key)`). -/
def hmacSha1 (key msg : List Nat) : List Nat :=
  let key := if key.length > 64 then sha1 key else key
  let key := key ++ List.replicate (64 - key.length) 0
  sha1 ((key.map (fun b => b ^^^ 92)) ++ sha1 ((key.map (fun b => b ^^^ 54)) ++ msg))

/-! ## Base32 decoding (Go `encoding/base32` `StdEncoding.DecodeString`) -/

/-- Value of one character of the standard base32 alphabet
`ABCDEFGHIJKLMNOPQRSTUVWXYZ234567`. -/
def base32CharVal (c : Char) : Option Nat :=
  if 'A' ≤ c ∧ c ≤ 'Z' then some (c.toNat - 65)
  else if '2' ≤ c ∧ c ≤ '7' then some (c.toNat - 50 + 26)
  else none

/-- Decode one 8-character base32 quantum.  Data characters before the `=`
padding; the number of data characters must be 2, 4, 5, 7 or 8, and the
remainder all `=`.  Returns the decoded bytes and whether the quantum was
padded (and must therefore be final). -/
def decodeQuantum (q : List Char) : Option (List Nat × Bool) :=
  let dataChars := q.takeWhile (fun c => c ≠ '=')
  let dlen := dataChars.length
  if (q.drop dlen).all (fun c => c = '=') &&
     (dlen == 8 || dlen == 7 || dlen == 5 || dlen == 4 || dlen == 2) then
    match dataChars.mapM base32CharVal with
    | none => none
    | some vals =>
      let full := (vals.foldl (fun a v => a * 32 + v) 0) <<< ((8 - dlen) * 5)
      some (([full / 4294967296 % 256, full / 16777216 % 256, full / 65536 % 256,
              full / 256 % 256, full % 256]).take (dlen * 5 / 8), dlen != 8)
  else none

/-- Decode a base32 string as a sequence of 8-character quanta; a padded
quantum must be the last one, and an incomplete quantum is an error.  `fuel`
bounds the number of quanta (structural recursion so the kernel can evaluate
it). -/
def base32DecodeAux : Nat → List Char → Option (List Nat)
  | _, [] => some []
  | 0, _ => none
  | fuel + 1, cs =>
    if cs.length < 8 then none
    else
      match decodeQuantum (cs.take 8) with
      | none => none
      | some (bytes, final) =>
        if final then if (cs.drop 8).isEmpty then some bytes else none
        else
          match base32DecodeAux fuel (cs.drop 8) with
          | none => none
          | some bs => some (bytes ++ bs)

/-- Go `base32.StdEncoding.DecodeString`: newlines are ignored, then the
input is decoded quantum by quantum; `none` models the `error` return. -/
def base32Decode (s : List Char) : Option (List Nat) :=
  let cs := s.filter (fun c => c != '\n' && c != '\r')
  base32DecodeAux cs.length cs

/-- ASCII fragment of Go `strings.ToUpper` (secrets are ASCII). -/
def goToUpper (s : List Char) : List Char :=
  s.map fun c => if 'a' ≤ c ∧ c ≤ 'z' then Char.ofNat (c.toNat - 32) else c

/-! ## The TOTP engine (`internal/attendance/totp.go`) -/

/-- ASCII digit character for `d < 10`. -/
def digitChar (d : Nat) : Char := Char.ofNat (48 + d)

/-- Go `fmt.Sprintf("%06d", n)` for `0 ≤ n < 1000000`: six decimal digits with
leading zeros. -/
def sprintf06d (n : Nat) : List Char :=
  [digitChar (n / 100000 % 10), digitChar (n / 10000 % 10), digitChar (n / 1000 % 10),
   digitChar (n / 100 % 10), digitChar (n / 10 % 10), digitChar (n % 10)]

/-- Go `TOTPService.generateTOTPForTime`: 30-second counter, base32-decoded
secret, HMAC-SHA1, RFC-4226 dynamic truncation, 6-digit code.  A secret that
fails base32 decoding yields the empty string.  `Int.tdiv` is Go `int64`
division (truncation toward zero); `% 18446744073709551616` is the Go
`uint64(counter)` conversion. -/
def generateTOTPForTime (secret : List Char) (unixTime : Int) : List Char :=
  let counter := Int.tdiv unixTime 30
  match base32Decode (goToUpper secret) with
  | none => []
  | some key =>
    let counterBytes := beBytes8 ((counter % 18446744073709551616).toNat)
    let hash := hmacSha1 key counterBytes
    let offset := hash.getLastD 0 &&& 15
    let truncatedHash := beUint32 ((hash.drop offset).take 4) &&& 2147483647
    sprintf06d (truncatedHash % 1000000)

/-- Go `TOTPService.Verify`: strip spaces, require 6 characters, then accept if
the token matches the code of the current, previous or next 30-second step of
`now`. -/
def Verify (secret token : List Char) (now : Int) : Bool :=
  let token := token.filter (fun c => c != ' ')
  if token.length ≠ 6 then false
  else
    ([-1, 0, 1] : List Int).any fun i =>
      token == generateTOTPForTime secret ((Int.tdiv now 30 + i) * 30)

/-- Go `ValidateSecret`: at least 16 characters and base32-decodable (after
upper-casing). -/
def ValidateSecret (secret : List Char) : Bool :=
  if secret.length < 16 then false
  else (base32Decode (goToUpper secret)).isSome

/-! ## Date and time formatting (`internal/utils/date.go`, fixed Asia/Jakarta
zone = UTC+7, no DST) -/

/-- Jakarta offset from UTC in seconds (+07:00). -/
def jakartaOffset : Int := 25200

/-- Two right-aligned zero-padded decimal digits (`fmt` `"%02d"` / Go time
layout `02`/`15`/`04`). -/
def pad2 (n : Nat) : List Char := [digitChar (n / 10 % 10), digitChar (n % 10)]

/-- Four right-aligned zero-padded decimal digits (Go time layout `2006`). -/
def pad4 (n : Nat) : List Char :=
  [digitChar (n / 1000 % 10), digitChar (n / 100 % 10), digitChar (n / 10 % 10),
   digitChar (n % 10)]

/-- Civil calendar date `(year, month, day)` from days since the Unix epoch
(proleptic Gregorian; the algorithm Go's `time` package implements). -/
def civilFromDays (z0 : Int) : Int × Nat × Nat :=
  let z := z0 + 719468
  let era := Int.ediv z 146097
  let doe := (z - era * 146097).toNat
  let yoe := (doe - doe / 1460 + doe / 36524 - doe / 146096) / 365
  let doy := doe - (365 * yoe + yoe / 4 - yoe / 100)
  let mp := (5 * doy + 2) / 153
  let d := doy - (153 * mp + 2) / 5 + 1
  let m := if mp < 10 then mp + 3 else mp - 9
  (era * 400 + yoe + (if m ≤ 2 then 1 else 0), m, d)

/-- English month names used by the Go time layout `January`. -/
def monthName : Nat → String
  | 1 => "January"
  | 2 => "February"
  | 3 => "March"
  | 4 => "April"
  | 5 => "May"
  | 6 => "June"
  | 7 => "July"
  | 8 => "August"
  | 9 => "September"
  | 10 => "October"
  | 11 => "November"
  | 12 => "December"
  | _ => ""

/-- Go `utils.FormatDate(t, "yyyy-MM-dd")`: the calendar date of instant `unix`
in the Jakarta zone, rendered `YYYY-MM-DD`. -/
def formatDateYMD (unix : Int) : String :=
  let ymd := civilFromDays (Int.ediv (unix + jakartaOffset) 86400)
  String.mk (pad4 ymd.1.toNat ++ ['-'] ++ pad2 ymd.2.1 ++ ['-'] ++ pad2 ymd.2.2)

/-- Go `utils.FormatDate(t, "dd MMMM yyyy")`: Go layout `02 January 2006` in the
Jakarta zone. -/
def formatDateDMY (unix : Int) : String :=
  let ymd := civilFromDays (Int.ediv (unix + jakartaOffset) 86400)
  String.mk (pad2 ymd.2.2) ++ " " ++ monthName ymd.2.1 ++ " " ++ String.mk (pad4 ymd.1.toNat)

/-- Go `utils.FormatTime(t, "HH:mm")`: wall-clock hours and minutes of instant
`unix` in the Jakarta zone. -/
def formatTimeHM (unix : Int) : String :=
  let lsec := (Int.emod (unix + jakartaOffset) 86400).toNat
  String.mk (pad2 (lsec / 3600) ++ [':'] ++ pad2 (lsec % 3600 / 60))

/-- Go `time.Time.Hour()` of a timestamp stored with the `+07:00` offset (the
records are written by `NowInJakarta` and round-tripped through RFC 3339, so
`Hour` is the Jakarta wall-clock hour). -/
def hourJakarta (unix : Int) : Int :=
  Int.ediv (Int.emod (unix + jakartaOffset) 86400) 3600

/-- Go `utils.CalculateWorkDuration`: duration between check-in and check-out as
`"H jam M menit"` (or `"M menit"` when less than an hour).  `Int.tdiv`/`Int.tmod`
mirror Go's truncating `int` conversion of `duration.Hours()`/`Minutes()` and
`%`. -/
def calculateWorkDuration (checkIn checkOut : Int) : String :=
  let duration := checkOut - checkIn
  let hours := Int.tdiv duration 3600
  let minutes := Int.tmod (Int.tdiv duration 60) 60
  if hours > 0 then s!"{hours} jam {minutes} menit"
  else s!"{minutes} menit"

/-! ## OTP syntax validation (`internal/utils/validation.go`) -/

/-- ASCII white space as trimmed by Go `strings.TrimSpace` (the OTP inputs are
ASCII). -/
def isASCIISpace (c : Char) : Bool :=
  c = ' ' || c = '\t' || c = '\n' || c = '\r' ||
  c = Char.ofNat 11 || c = Char.ofNat 12

/-- Go `strings.TrimSpace`: drop leading and trailing white space. -/
def trimSpace (s : List Char) : List Char :=
  ((s.dropWhile isASCIISpace).reverse.dropWhile isASCIISpace).reverse

/-- ASCII decimal digit (the regexp class `\d`). -/
def isDigitChar (c : Char) : Bool := '0' ≤ c && c ≤ '9'

/-- Go `utils.ValidateOTP`: trim white space, require exactly 6 characters, all
decimal digits (the regexp `^\d{6}$`). -/
def validateOTP (otp : List Char) : Bool :=
  let otp := trimSpace otp
  if otp.length ≠ 6 then false
  else otp.all isDigitChar

/-! ## Data model (`pkg/models/attendance.go`) -/

/-- Go `models.AttendanceRecord`.  `recType` is the Go field `Type`
(`"check_in"` or `"check_out"`); timestamps are Unix seconds. -/
structure AttendanceRecord where
  id : Int
  userID : Int
  username : String
  firstName : String
  lastName : Option String
  timestamp : Int
  recType : String
  date : String
deriving DecidableEq, Repr

/-- Go `models.UserAlias`. -/
structure UserAlias where
  userID : Int
  firstName : String
  lastName : Option String
deriving DecidableEq, Repr

/-- Go `models.AttendanceStatus`. -/
structure AttendanceStatus where
  hasCheckedIn : Bool
  hasCheckedOut : Bool
  checkInRecord : Option AttendanceRecord
  checkOutRecord : Option AttendanceRecord
deriving DecidableEq, Repr

/-! ## The store (`internal/database/repository.go` over the SQLite schema of
`internal/database/sqlite.go`) -/

/-- The relational store: the `attendance` table (with its
`UNIQUE(user_id, date, type)` constraint checked on insert), the `alias` table
(primary key `user_id`), and the autoincrement counter. -/
structure DB where
  attendance : List AttendanceRecord
  aliases : List UserAlias
  nextId : Int
deriving DecidableEq, Repr

/-- Store-level failure: the `UNIQUE(user_id, date, type)` constraint
violation, or any other driver error. -/
inductive DBError where
  | uniqueConstraint
  | other
deriving DecidableEq, Repr

/-- Stable insertion into a timestamp-ascending list. -/
def insertByTimestamp (r : AttendanceRecord) : List AttendanceRecord → List AttendanceRecord
  | [] => [r]
  | x :: xs =>
    if r.timestamp ≤ x.timestamp then r :: x :: xs
    else x :: insertByTimestamp r xs

/-- The `ORDER BY timestamp ASC` of the SQL queries. -/
def sortByTimestamp : List AttendanceRecord → List AttendanceRecord
  | [] => []
  | x :: xs => insertByTimestamp x (sortByTimestamp xs)

/-- Go `Repository.InsertAttendance`: the schema's `UNIQUE(user_id, date, type)`
constraint rejects a duplicate (identity, date, kind) row; otherwise the row is
stored and receives the autoincrement id (`LastInsertId`). -/
def insertAttendance (db : DB) (record : AttendanceRecord) :
    Except DBError (AttendanceRecord × DB) :=
  if db.attendance.any fun r =>
      r.userID == record.userID && r.date == record.date && r.recType == record.recType then
    .error .uniqueConstraint
  else
    let saved := { record with id := db.nextId }
    .ok (saved, { db with attendance := db.attendance ++ [saved], nextId := db.nextId + 1 })

/-- Go `Repository.GetUserAttendanceToday`: rows for one identity and date,
ordered by timestamp ascending. -/
def getUserAttendanceToday (db : DB) (userID : Int) (date : String) :
    List AttendanceRecord :=
  sortByTimestamp (db.attendance.filter fun r => r.userID == userID && r.date == date)

/-- Go `Repository.GetUserAttendanceStatus`: fold today's rows into the daily
status, exactly as the Go loop does (an earlier flag is never reset). -/
def getUserAttendanceStatus (db : DB) (userID : Int) (date : String) :
    AttendanceStatus :=
  (getUserAttendanceToday db userID date).foldl
    (fun status record =>
      if record.recType == "check_in" then
        { status with hasCheckedIn := true, checkInRecord := some record }
      else if record.recType == "check_out" then
        { status with hasCheckedOut := true, checkOutRecord := some record }
      else status)
    ⟨false, false, none, none⟩

/-- Go `Repository.GetDailyReport`: all rows of one date, ordered by timestamp
(the LEFT JOIN with `alias` selects only `attendance` columns and `alias` has
at most one row per identity, so it adds and removes nothing). -/
def getDailyReport (db : DB) (date : String) : List AttendanceRecord :=
  sortByTimestamp (db.attendance.filter fun r => r.date == date)

/-- Go `Repository.GetUserAlias`: the `alias` row of an identity, if any
(`sql.ErrNoRows` becomes `none`). -/
def getUserAlias (db : DB) (userID : Int) : Option UserAlias :=
  (db.aliases.filter fun a => a.userID == userID).head?

/-! ## The attendance service (`internal/attendance/service.go`) -/

/-- Go `attendance.AttendanceResult`. -/
structure AttendanceResult where
  success : Bool
  message : String
  record : Option AttendanceRecord
deriving DecidableEq, Repr

/-- Hard error returned by `Service.MarkAttendance` (Go wraps the repository
error with `fmt.Errorf("failed to save attendance: %w", err)`). -/
inductive ServiceError where
  | saveFailed (e : DBError)
deriving DecidableEq, Repr

/-- Go `Service.formatUserName`: prefer the stored alias (full name only when the
last name is present and non-empty), falling back to the record's own name
fields with the same rule. -/
def formatUserName (db : DB) (record : AttendanceRecord) : String :=
  match getUserAlias db record.userID with
  | some al =>
    match al.lastName with
    | some ln => if ln ≠ "" then al.firstName ++ " " ++ ln else al.firstName
    | none => al.firstName
  | none =>
    match record.lastName with
    | some ln => if ln ≠ "" then record.firstName ++ " " ++ ln else record.firstName
    | none => record.firstName

/-- The body of `Service.MarkAttendance`, with the store state it reads the
daily status from (`readDB`) and the store state its insert runs against
(`insertDB`) taken separately, so that a concurrent insert landing between the
two repository calls can be expressed.  The sequential run is
`MarkAttendance`, where both are the same state.  Returns the Go
`(*AttendanceResult, error)` pair as an `Except`, together with the resulting
store. -/
def markAttendanceWith (totpSecret : List Char) (readDB insertDB : DB)
    (userID : Int) (username firstName : String) (lastName : Option String)
    (otp : List Char) (now : Int) : Except ServiceError (AttendanceResult × DB) :=
  if !validateOTP otp then
    .ok ({ success := false,
           message := "❌ Format OTP tidak valid. Harap masukkan 6 digit angka.",
           record := none }, insertDB)
  else if !Verify totpSecret otp now then
    .ok ({ success := false,
           message := "❌ Kode OTP tidak valid atau sudah kedaluwarsa. Silakan coba dengan kode yang baru.",
           record := none }, insertDB)
  else
    let dateKey := formatDateYMD now
    let status := getUserAttendanceStatus readDB userID dateKey
    if !status.hasCheckedIn then
      let message := "✅ **Absen Masuk** tercatat!\n⏰ Waktu: " ++ formatTimeHM now
      let record : AttendanceRecord :=
        { id := 0, userID := userID, username := username, firstName := firstName,
          lastName := lastName, timestamp := now, recType := "check_in", date := dateKey }
      match insertAttendance insertDB record with
      | .error e => .error (.saveFailed e)
      | .ok (saved, db) =>
        .ok ({ success := true, message := message, record := some saved }, db)
    else if !status.hasCheckedOut then
      -- Go dereferences `status.CheckInRecord.Timestamp`; `hasCheckedIn = true`
      -- guarantees the record is set (the loop sets both together), so the
      -- `none` arm is unreachable (Go would nil-dereference there).
      let checkInTime := (status.checkInRecord.map AttendanceRecord.timestamp).getD 0
      let message := "🏠 **Absen Pulang** tercatat!\n⏰ Waktu: " ++ formatTimeHM now ++
        "\n⌛ Durasi kerja: " ++ calculateWorkDuration checkInTime now
      let record : AttendanceRecord :=
        { id := 0, userID := userID, username := username, firstName := firstName,
          lastName := lastName, timestamp := now, recType := "check_out", date := dateKey }
      match insertAttendance insertDB record with
      | .error e => .error (.saveFailed e)
      | .ok (saved, db) =>
        .ok ({ success := true, message := message, record := some saved }, db)
    else
      .ok ({ success := false,
             message := "❌ Anda sudah absen lengkap hari ini (masuk dan pulang)!",
             record := none }, insertDB)

/-- Go `Service.MarkAttendance`: the sequential run (one store state). -/
def MarkAttendance (totpSecret : List Char) (db : DB) (userID : Int)
    (username firstName : String) (lastName : Option String) (otp : List Char)
    (now : Int) : Except ServiceError (AttendanceResult × DB) :=
  markAttendanceWith totpSecret db db userID username firstName lastName otp now

/-! ## The daily report (`Service.GenerateAttendanceReport`) -/

/-- The entry the Go map `userRecords[u][ty]` holds after the grouping loop:
the last record of identity `u` with kind `ty` (a later assignment overwrites
an earlier one). -/
def groupFor (records : List AttendanceRecord) (u : Int) (ty : String) :
    Option AttendanceRecord :=
  (records.filter fun r => r.userID == u && r.recType == ty).getLast?

/-- The distinct identities of the day's records (the key set of the Go map
`userRecords`). -/
def reportKeys (records : List AttendanceRecord) : List Int :=
  (records.map AttendanceRecord.userID).dedup

/-- The report fragment one identity contributes, with its check-in/check-out
counter increments: the Go loop body over `userRecords`. -/
def reportForUser (db : DB) (records : List AttendanceRecord) (userIndex : Nat)
    (u : Int) : String × Nat × Nat :=
  let checkInRec := groupFor records u "check_in"
  let checkOutRec := groupFor records u "check_out"
  let inPart :=
    match checkInRec with
    | some r =>
      s!"{userIndex}. **{formatUserName db r}**\n" ++
      s!"   ⏰ Masuk: {formatTimeHM r.timestamp}" ++
      (if hourJakarta r.timestamp ≥ 9 then " ⚠️" else " ✅") ++ "\n"
    | none => ""
  let outPart :=
    match checkOutRec with
    | some r2 =>
      (match checkInRec with
       | none => s!"{userIndex}. **{formatUserName db r2}**\n" ++ "   ⏰ Masuk: -\n"
       | some _ => "") ++
      s!"   🏠 Pulang: {formatTimeHM r2.timestamp}\n" ++
      (match checkInRec with
       | some r => s!"   ⌛ Durasi: {calculateWorkDuration r.timestamp r2.timestamp}\n"
       | none => "")
    | none => match checkInRec with
      | some _ => "   🏠 Pulang: -\n"
      | none => ""
  (inPart ++ outPart ++ "\n",
   (if checkInRec.isSome then 1 else 0), (if checkOutRec.isSome then 1 else 0))

/-- Go `Service.GenerateAttendanceReport`.  `now` is the wall clock
(`time.Now()`); `order` is the iteration order of the Go map `userRecords`,
which the language leaves unspecified — a run of the Go code corresponds to
some permutation of `reportKeys`. -/
def GenerateAttendanceReport (db : DB) (now : Int) (order : List Int) : String :=
  let today := formatDateYMD now
  let records := getDailyReport db today
  if records.isEmpty then "📭 Belum ada yang absen hari ini."
  else
    let header := "📊 **Laporan Absensi Hari Ini**\n📅 " ++ formatDateDMY now ++ "\n\n"
    let step := fun (acc : String × Nat × Nat × Nat) (u : Int) =>
      let part := reportForUser db records acc.2.2.2 u
      (acc.1 ++ part.1, acc.2.1 + part.2.1, acc.2.2.1 + part.2.2, acc.2.2.2 + 1)
    let body := order.foldl step ("", 0, 0, 1)
    header ++ body.1 ++ "**Ringkasan:**\n" ++
      s!"👥 Total Karyawan: {(reportKeys records).length}\n" ++
      s!"📝 Check-in: {body.2.1}\n" ++
      s!"🏠 Check-out: {body.2.2.1}"

/-- The property claimed of derived codes: exactly 6 characters, all ASCII
digits. -/
def isSixDigitCode (l : List Char) : Bool := l.length == 6 && l.all isDigitChar

/-- A day with events of two identities (exhibits the report's dependence on
the map iteration order). -/
def reportTwoUserDB : DB :=
  ⟨[⟨1, 1, "a", "Alice", none, 100, "check_in", "1970-01-01"⟩,
    ⟨2, 2, "b", "Bob", none, 200, "check_in", "1970-01-01"⟩], [], 3⟩

/-- A day with events of a single identity (determinism witness). -/
def reportOneUserDB : DB :=
  ⟨[⟨1, 1, "a", "Alice", none, 100, "check_in", "1970-01-01"⟩], [], 2⟩

/-! ## Helper lemmas: digests and digit strings -/

theorem sha1Out_length (h : Nat × Nat × Nat × Nat × Nat) : (sha1Out h).length = 20 := by
  simp [sha1Out, wordToBytes]

theorem sha1_length (msg : List Nat) : (sha1 msg).length = 20 := by
  unfold sha1
  exact sha1Out_length _

theorem hmacSha1_length (key msg : List Nat) : (hmacSha1 key msg).length = 20 := by
  unfold hmacSha1
  exact sha1_length _

theorem digitChar_digit (d : Nat) (h : d < 10) : isDigitChar (digitChar d) = true := by
  interval_cases d <;> decide

theorem digitChar_ne_space (d : Nat) (h : d < 10) : (digitChar d != ' ') = true := by
  interval_cases d <;> decide

theorem digitChar_not_space (d : Nat) (h : d < 10) : isASCIISpace (digitChar d) = false := by
  interval_cases d <;> decide

theorem sprintf06d_length (n : Nat) : (sprintf06d n).length = 6 := rfl

theorem sprintf06d_filter_space (n : Nat) :
    (sprintf06d n).filter (fun c => c != ' ') = sprintf06d n := by
  have h1 := digitChar_ne_space (n / 100000 % 10) (Nat.mod_lt _ (by norm_num))
  have h2 := digitChar_ne_space (n / 10000 % 10) (Nat.mod_lt _ (by norm_num))
  have h3 := digitChar_ne_space (n / 1000 % 10) (Nat.mod_lt _ (by norm_num))
  have h4 := digitChar_ne_space (n / 100 % 10) (Nat.mod_lt _ (by norm_num))
  have h5 := digitChar_ne_space (n / 10 % 10) (Nat.mod_lt _ (by norm_num))
  have h6 := digitChar_ne_space (n % 10) (Nat.mod_lt _ (by norm_num))
  simp [sprintf06d, List.filter, h1, h2, h3, h4, h5, h6]

theorem sprintf06d_all_digits (n : Nat) : (sprintf06d n).all isDigitChar = true := by
  have h1 := digitChar_digit (n / 100000 % 10) (Nat.mod_lt _ (by norm_num))
  have h2 := digitChar_digit (n / 10000 % 10) (Nat.mod_lt _ (by norm_num))
  have h3 := digitChar_digit (n / 1000 % 10) (Nat.mod_lt _ (by norm_num))
  have h4 := digitChar_digit (n / 100 % 10) (Nat.mod_lt _ (by norm_num))
  have h5 := digitChar_digit (n / 10 % 10) (Nat.mod_lt _ (by norm_num))
  have h6 := digitChar_digit (n % 10) (Nat.mod_lt _ (by norm_num))
  simp [sprintf06d, List.all_cons, h1, h2, h3, h4, h5, h6]

theorem dropWhile_no_space (l : List Char) (h : ∀ c ∈ l, isASCIISpace c = false) :
    l.dropWhile isASCIISpace = l := by
  cases l with
  | nil => rfl
  | cons a as => rw [List.dropWhile_cons, h a (by simp)]; simp

theorem trimSpace_no_space (l : List Char) (h : ∀ c ∈ l, isASCIISpace c = false) :
    trimSpace l = l := by
  unfold trimSpace
  rw [dropWhile_no_space l h,
      dropWhile_no_space l.reverse (fun c hc => h c (List.mem_reverse.mp hc)),
      List.reverse_reverse]

theorem sprintf06d_no_space (n : Nat) :
    ∀ c ∈ sprintf06d n, isASCIISpace c = false := by
  intro c hc
  simp only [sprintf06d, List.mem_cons, List.not_mem_nil, or_false] at hc
  rcases hc with h | h | h | h | h | h <;>
    · subst h; exact digitChar_not_space _ (Nat.mod_lt _ (by norm_num))

theorem sprintf06d_trimSpace (n : Nat) : trimSpace (sprintf06d n) = sprintf06d n :=
  trimSpace_no_space _ (sprintf06d_no_space n)

theorem validateOTP_sprintf06d (n : Nat) : validateOTP (sprintf06d n) = true := by
  unfold validateOTP
  simp only [sprintf06d_trimSpace, sprintf06d_length, sprintf06d_all_digits, ne_eq,
    not_true_eq_false]
  simp

/-! ## Helper lemmas: the TOTP engine -/

theorem validateSecret_isSome (s : List Char) (h : ValidateSecret s = true) :
    (base32Decode (goToUpper s)).isSome = true := by
  unfold ValidateSecret at h
  split at h
  · exact absurd h (by simp)
  · exact h

theorem generate_eq_sprintf (s : List Char) (t : Int)
    (h : (base32Decode (goToUpper s)).isSome = true) :
    ∃ n, generateTOTPForTime s t = sprintf06d n := by
  obtain ⟨key, hk⟩ := Option.isSome_iff_exists.mp h
  unfold generateTOTPForTime
  rw [hk]
  exact ⟨_, rfl⟩

theorem generate_none (s : List Char) (t : Int)
    (h : base32Decode (goToUpper s) = none) : generateTOTPForTime s t = [] := by
  unfold generateTOTPForTime
  rw [h]

theorem generate_counter_congr (s : List Char) (t₁ t₂ : Int)
    (h : Int.tdiv t₁ 30 = Int.tdiv t₂ 30) :
    generateTOTPForTime s t₁ = generateTOTPForTime s t₂ := by
  unfold generateTOTPForTime
  rw [h]

theorem generate_stepTime (s : List Char) (c t : Int) (h : c = Int.tdiv t 30) :
    generateTOTPForTime s (c * 30) = generateTOTPForTime s t := by
  apply generate_counter_congr
  rw [Int.mul_tdiv_cancel _ (by norm_num)]
  exact h

theorem length_six_ne_nil (l : List Char) (h : l.length = 6) :
    (l == ([] : List Char)) = false := by
  cases l with
  | nil => simp at h
  | cons a as => rfl

theorem verify_generate_self (s : List Char) (t : Int)
    (h : (base32Decode (goToUpper s)).isSome = true) :
    Verify s (generateTOTPForTime s t) t = true := by
  obtain ⟨n, hgen⟩ := generate_eq_sprintf s t h
  unfold Verify
  rw [hgen]
  simp only [sprintf06d_filter_space, sprintf06d_length, ne_eq, not_true_eq_false,
    Bool.false_eq_true, if_false]
  rw [List.any_eq_true]
  refine ⟨0, by simp, ?_⟩
  rw [add_zero, generate_stepTime s _ t rfl, hgen]
  exact beq_self_eq_true _

/-- C3: for every valid (base32-decodable, length ≥ 16) secret and every
instant `t`, the code derived from the secret at `t` verifies at clock `t`. -/
theorem totp_roundtrip (s : List Char) (t : Int) (hs : ValidateSecret s = true) :
    Verify s (generateTOTPForTime s t) t = true :=
  verify_generate_self s t (validateSecret_isSome s hs)

/-- C3 witness: the round trip at secret `JBSWY3DPEHPK3PXP` and instant 59. -/
theorem totp_roundtrip_witness :
    Verify "JBSWY3DPEHPK3PXP".toList
      (generateTOTPForTime "JBSWY3DPEHPK3PXP".toList 59) 59 = true :=
  totp_roundtrip "JBSWY3DPEHPK3PXP".toList 59 (by decide)

/-- C4 counterexample: for the secret `"!"` (not base32), the derived code is
the empty string, not a 6-digit string — the claim fails for invalid
secrets. -/
theorem derived_code_six_digits_counterexample :
    isSixDigitCode (generateTOTPForTime ['!'] 0) = false := by decide

/-- C4 (amended): for every secret that base32-decodes (after upper-casing)
and every instant, the derived code is exactly 6 ASCII digits, leading zeros
preserved. -/
theorem derived_code_six_digits (s : List Char) (t : Int)
    (h : (base32Decode (goToUpper s)).isSome = true) :
    isSixDigitCode (generateTOTPForTime s t) = true := by
  obtain ⟨n, hgen⟩ := generate_eq_sprintf s t h
  rw [hgen]
  unfold isSixDigitCode
  rw [sprintf06d_length]
  simp [sprintf06d_all_digits]

/-- C4 witness: the amended claim at secret `JBSWY3DPEHPK3PXP`, instant 0. -/
theorem derived_code_six_digits_witness :
    isSixDigitCode (generateTOTPForTime "JBSWY3DPEHPK3PXP".toList 0) = true :=
  derived_code_six_digits "JBSWY3DPEHPK3PXP".toList 0 (by decide)

/-- C6: a malformed (non-base32) secret fails closed — verification returns
false for every candidate and derivation yields no code — and, for any key and
message, the dynamic-truncation offset into the 20-byte HMAC-SHA1 digest
always stays in bounds (the functions are total, so nothing panics). -/
theorem malformed_secret_fails_closed (s token : List Char) (t : Int)
    (h : base32Decode (goToUpper s) = none) :
    Verify s token t = false ∧ generateTOTPForTime s t = [] ∧
    ∀ key msg : List Nat,
      ((hmacSha1 key msg).getLastD 0 &&& 15) + 4 ≤ (hmacSha1 key msg).length := by
  refine ⟨?_, generate_none s t h, ?_⟩
  · unfold Verify
    by_cases hlen : (token.filter (fun c => c != ' ')).length = 6
    · simp only [hlen, ne_eq, not_true_eq_false, if_false, reduceCtorEq, decide_False,
        ite_false]
      rw [List.any_eq_false]
      intro i _
      rw [generate_none s _ h]
      simp [length_six_ne_nil _ hlen]
    · simp [hlen]
  · intro key msg
    rw [hmacSha1_length]
    have : (hmacSha1 key msg).getLastD 0 &&& 15 ≤ 15 := Nat.and_le_right
    omega

/-- C6 witness: the fail-closed behaviour at secret `"!"` with candidate
`123456` at instant 0. -/
theorem malformed_secret_fails_closed_witness :
    Verify ['!'] "123456".toList 0 = false ∧ generateTOTPForTime ['!'] 0 = [] ∧
    ∀ key msg : List Nat,
      ((hmacSha1 key msg).getLastD 0 &&& 15) + 4 ≤ (hmacSha1 key msg).length :=
  malformed_secret_fails_closed ['!'] "123456".toList 0 (by decide)

/-! ## Helper lemmas: 30-second step arithmetic (Go truncating division) -/

theorem tmod_neg_left (x : Int) : Int.tmod (-x) 30 = -Int.tmod x 30 := by
  rw [Int.tmod_def, Int.tmod_def, Int.neg_tdiv]
  ring

theorem tmod30_range (t : Int) :
    (0 ≤ t ∧ 0 ≤ Int.tmod t 30 ∧ Int.tmod t 30 < 30) ∨
    (t ≤ 0 ∧ -30 < Int.tmod t 30 ∧ Int.tmod t 30 ≤ 0) := by
  rcases le_or_lt 0 t with h | h
  · exact Or.inl ⟨h, Int.tmod_nonneg _ h, Int.tmod_lt_of_pos _ (by norm_num)⟩
  · refine Or.inr ⟨le_of_lt h, ?_, ?_⟩
    · have hb := Int.tmod_lt_of_pos (-t) (show (0 : Int) < 30 by norm_num)
      have he := tmod_neg_left t
      omega
    · have hb := Int.tmod_nonneg (a := -t) 30 (by omega)
      have he := tmod_neg_left t
      omega

theorem counter_window_up (t : Int) :
    Int.tdiv t 30 - Int.tdiv (t + 29) 30 = -1 ∨
    Int.tdiv t 30 - Int.tdiv (t + 29) 30 = 0 := by
  have d1 := Int.tdiv_add_tmod t 30
  have d2 := Int.tdiv_add_tmod (t + 29) 30
  have r1 := tmod30_range t
  have r2 := tmod30_range (t + 29)
  omega

theorem counter_window_down (t : Int) :
    Int.tdiv t 30 - Int.tdiv (t - 29) 30 = 0 ∨
    Int.tdiv t 30 - Int.tdiv (t - 29) 30 = 1 := by
  have d1 := Int.tdiv_add_tmod t 30
  have d2 := Int.tdiv_add_tmod (t - 29) 30
  have r1 := tmod30_range t
  have r2 := tmod30_range (t - 29)
  omega

theorem counter_plus61 (t : Int) (ht : 0 ≤ t) (hmod : Int.tmod t 30 = 0) :
    Int.tdiv (t + 61) 30 = Int.tdiv t 30 + 2 := by
  have d1 := Int.tdiv_add_tmod t 30
  have d2 := Int.tdiv_add_tmod (t + 61) 30
  have r2 := tmod30_range (t + 61)
  omega

/-- C5 counterexample: with the valid secret `JBSWY3DPEHPK3PXP` and the
step-aligned instant 24559950 (= 30·818665), the code derived at `t` is
accepted when checked at `t+61` — two steps away — because the truncated
6-digit codes of counters 818665 and 818667 collide.  The claim's universal
"rejects two steps away" is therefore false. -/
theorem totp_window_counterexample :
    ValidateSecret "JBSWY3DPEHPK3PXP".toList = true ∧
    Int.tmod 24559950 30 = 0 ∧
    Verify "JBSWY3DPEHPK3PXP".toList
      (generateTOTPForTime "JBSWY3DPEHPK3PXP".toList 24559950)
      (24559950 + 61) = true :=
  ⟨by decide, by decide, by decide⟩

/-- C5 (amended): for a valid secret, a code derived at `t` is accepted when
checked at `t+29` or `t−29` (same or adjacent 30-second step); and when `t` is
step-aligned it is rejected at `t+61` (two or more steps away) provided the
truncated 6-digit codes of the one-to-three-steps-ahead counters do not
collide with the derived code (such collisions exist, see the
counterexample). -/
theorem totp_window (s : List Char) (t : Int) (hs : ValidateSecret s = true) :
    Verify s (generateTOTPForTime s t) (t + 29) = true ∧
    Verify s (generateTOTPForTime s t) (t - 29) = true ∧
    (0 ≤ t → Int.tmod t 30 = 0 →
      (∀ j ∈ ([1, 2, 3] : List Int),
        generateTOTPForTime s ((Int.tdiv t 30 + j) * 30) ≠ generateTOTPForTime s t) →
      Verify s (generateTOTPForTime s t) (t + 61) = false) := by
  have hsome := validateSecret_isSome s hs
  obtain ⟨n, hgen⟩ := generate_eq_sprintf s t hsome
  refine ⟨?_, ?_, ?_⟩
  · unfold Verify
    rw [hgen]
    simp only [sprintf06d_filter_space, sprintf06d_length, ne_eq, not_true_eq_false,
      Bool.false_eq_true, if_false]
    rw [List.any_eq_true]
    refine ⟨Int.tdiv t 30 - Int.tdiv (t + 29) 30, ?_, ?_⟩
    · have hw := counter_window_up t
      simp only [List.mem_cons, List.not_mem_nil, or_false]
      omega
    · rw [show Int.tdiv (t + 29) 30 + (Int.tdiv t 30 - Int.tdiv (t + 29) 30) =
            Int.tdiv t 30 by ring]
      rw [generate_stepTime s _ t rfl, hgen]
      exact beq_self_eq_true _
  · unfold Verify
    rw [hgen]
    simp only [sprintf06d_filter_space, sprintf06d_length, ne_eq, not_true_eq_false,
      Bool.false_eq_true, if_false]
    rw [List.any_eq_true]
    refine ⟨Int.tdiv t 30 - Int.tdiv (t - 29) 30, ?_, ?_⟩
    · have hw := counter_window_down t
      simp only [List.mem_cons, List.not_mem_nil, or_false]
      omega
    · rw [show Int.tdiv (t - 29) 30 + (Int.tdiv t 30 - Int.tdiv (t - 29) 30) =
            Int.tdiv t 30 by ring]
      rw [generate_stepTime s _ t rfl, hgen]
      exact beq_self_eq_true _
  · intro ht hmod hne
    unfold Verify
    rw [hgen]
    simp only [sprintf06d_filter_space, sprintf06d_length, ne_eq, not_true_eq_false,
      Bool.false_eq_true, if_false]
    rw [List.any_eq_false]
    intro i hi
    rw [counter_plus61 t ht hmod]
    intro hbeq
    have heq := beq_iff_eq.mp hbeq
    refine hne (2 + i) ?_ ?_
    · simp only [List.mem_cons, List.not_mem_nil, or_false] at hi ⊢
      omega
    · rw [show Int.tdiv t 30 + (2 + i) = Int.tdiv t 30 + 2 + i by ring, ← heq, hgen]

/-- C5 witness: the amended claim at secret `JBSWY3DPEHPK3PXP` and the
step-aligned instant 60, where no code collision occurs. -/
theorem totp_window_witness :
    Verify "JBSWY3DPEHPK3PXP".toList
      (generateTOTPForTime "JBSWY3DPEHPK3PXP".toList 60) (60 + 29) = true ∧
    Verify "JBSWY3DPEHPK3PXP".toList
      (generateTOTPForTime "JBSWY3DPEHPK3PXP".toList 60) (60 - 29) = true ∧
    Verify "JBSWY3DPEHPK3PXP".toList
      (generateTOTPForTime "JBSWY3DPEHPK3PXP".toList 60) (60 + 61) = false := by
  obtain ⟨h1, h2, h3⟩ := totp_window "JBSWY3DPEHPK3PXP".toList 60 (by decide)
  exact ⟨h1, h2, h3 (by norm_num) (by decide) (by decide)⟩

/-! ## Helper lemmas: the daily status -/

theorem statusFold_hasCheckedIn (rs : List AttendanceRecord) (s0 : AttendanceStatus) :
    (rs.foldl (fun status record =>
      if record.recType == "check_in" then
        { status with hasCheckedIn := true, checkInRecord := some record }
      else if record.recType == "check_out" then
        { status with hasCheckedOut := true, checkOutRecord := some record }
      else status) s0).hasCheckedIn =
    (s0.hasCheckedIn || rs.any fun r => r.recType == "check_in") := by
  induction rs generalizing s0 with
  | nil => simp
  | cons r rs ih =>
    simp only [List.foldl_cons, List.any_cons]
    by_cases h : (r.recType == "check_in") = true
    · rw [if_pos h, ih]
      simp [h]
    · rw [if_neg h]
      by_cases h2 : (r.recType == "check_out") = true
      · rw [if_pos h2, ih]
        simp [h, Bool.or_left_comm]
      · rw [if_neg h2, ih]
        simp [h]

theorem statusFold_hasCheckedOut (rs : List AttendanceRecord) (s0 : AttendanceStatus) :
    (rs.foldl (fun status record =>
      if record.recType == "check_in" then
        { status with hasCheckedIn := true, checkInRecord := some record }
      else if record.recType == "check_out" then
        { status with hasCheckedOut := true, checkOutRecord := some record }
      else status) s0).hasCheckedOut =
    (s0.hasCheckedOut || rs.any fun r => r.recType == "check_out") := by
  induction rs generalizing s0 with
  | nil => simp
  | cons r rs ih =>
    simp only [List.foldl_cons, List.any_cons]
    by_cases h : (r.recType == "check_in") = true
    · rw [if_pos h, ih]
      have hout : (r.recType == "check_out") = false := by
        rw [beq_iff_eq.mp h]; decide
      simp [hout]
    · rw [if_neg h]
      by_cases h2 : (r.recType == "check_out") = true
      · rw [if_pos h2, ih]
        simp [h2]
      · rw [if_neg h2, ih]
        simp [h2]

theorem insertByTimestamp_any (r : AttendanceRecord) (l : List AttendanceRecord)
    (p : AttendanceRecord → Bool) :
    (insertByTimestamp r l).any p = (p r || l.any p) := by
  induction l with
  | nil => simp [insertByTimestamp]
  | cons x xs ih =>
    unfold insertByTimestamp
    by_cases h : r.timestamp ≤ x.timestamp
    · simp [h]
    · rw [if_neg h]
      simp only [List.any_cons, ih]
      cases p r <;> cases p x <;> simp

theorem sortByTimestamp_any (l : List AttendanceRecord) (p : AttendanceRecord → Bool) :
    (sortByTimestamp l).any p = l.any p := by
  induction l with
  | nil => rfl
  | cons x xs ih =>
    unfold sortByTimestamp
    rw [insertByTimestamp_any, ih, List.any_cons]

theorem hasCheckedIn_any (db : DB) (u : Int) (d : String) :
    (getUserAttendanceStatus db u d).hasCheckedIn =
      db.attendance.any fun r => r.userID == u && r.date == d && r.recType == "check_in" := by
  unfold getUserAttendanceStatus getUserAttendanceToday
  rw [statusFold_hasCheckedIn, sortByTimestamp_any, List.any_filter]
  simp

theorem hasCheckedOut_any (db : DB) (u : Int) (d : String) :
    (getUserAttendanceStatus db u d).hasCheckedOut =
      db.attendance.any fun r => r.userID == u && r.date == d && r.recType == "check_out" := by
  unfold getUserAttendanceStatus getUserAttendanceToday
  rw [statusFold_hasCheckedOut, sortByTimestamp_any, List.any_filter]
  simp

/-- C9: whenever `MarkAttendance` returns without a hard error, the result's
success flag is true exactly when the result carries a record. -/
theorem markAttendance_success_iff_record (secret : List Char) (db : DB) (u : Int)
    (un fn : String) (ln : Option String) (otp : List Char) (now : Int)
    (res : AttendanceResult) (db' : DB)
    (h : MarkAttendance secret db u un fn ln otp now = .ok (res, db')) :
    res.success = true ↔ res.record.isSome = true := by
  unfold MarkAttendance markAttendanceWith at h
  simp only [] at h
  split at h
  · rw [Except.ok.injEq, Prod.mk.injEq] at h
    obtain ⟨h1, h2⟩ := h
    subst h1
    simp
  · split at h
    · rw [Except.ok.injEq, Prod.mk.injEq] at h
      obtain ⟨h1, h2⟩ := h
      subst h1
      simp
    · split at h
      · split at h
        · simp at h
        · rw [Except.ok.injEq, Prod.mk.injEq] at h
          obtain ⟨h1, h2⟩ := h
          subst h1
          simp
      · split at h
        · split at h
          · simp at h
          · rw [Except.ok.injEq, Prod.mk.injEq] at h
            obtain ⟨h1, h2⟩ := h
            subst h1
            simp
        · rw [Except.ok.injEq, Prod.mk.injEq] at h
          obtain ⟨h1, h2⟩ := h
          subst h1
          simp

/-- C9 witness: a call with a syntactically invalid code yields an
unsuccessful result with no record, satisfying the equivalence. -/
theorem markAttendance_success_iff_record_witness :
    (false = true) ↔ ((none : Option AttendanceRecord).isSome = true) :=
  markAttendance_success_iff_record [] ⟨[], [], 1⟩ 1 "u" "f" none [] 0
    { success := false,
      message := "❌ Format OTP tidak valid. Harap masukkan 6 digit angka.",
      record := none } ⟨[], [], 1⟩ rfl

/-- C10: an alias (or, absent an alias, the event itself) whose last name is
present but empty renders as the first name alone, exactly like an absent last
name; the `first last` form appears only for a present non-empty last name. -/
theorem formatUserName_empty_last (db : DB) (r : AttendanceRecord) :
    (∀ al : UserAlias, getUserAlias db r.userID = some al →
      (al.lastName = some "" → formatUserName db r = al.firstName) ∧
      (al.lastName = none → formatUserName db r = al.firstName) ∧
      (∀ ln, al.lastName = some ln → ln ≠ "" →
        formatUserName db r = al.firstName ++ " " ++ ln)) ∧
    (getUserAlias db r.userID = none →
      (r.lastName = some "" → formatUserName db r = r.firstName) ∧
      (r.lastName = none → formatUserName db r = r.firstName) ∧
      (∀ ln, r.lastName = some ln → ln ≠ "" →
        formatUserName db r = r.firstName ++ " " ++ ln)) := by
  constructor
  · intro al hal
    refine ⟨?_, ?_, ?_⟩
    · intro hln
      simp [formatUserName, hal, hln]
    · intro hln
      simp [formatUserName, hal, hln]
    · intro ln hln hne
      simp [formatUserName, hal, hln, hne]
  · intro hal
    refine ⟨?_, ?_, ?_⟩
    · intro hln
      simp [formatUserName, hal, hln]
    · intro hln
      simp [formatUserName, hal, hln]
    · intro ln hln hne
      simp [formatUserName, hal, hln, hne]

/-- C10 witness: a stored alias with an empty-string last name renders as the
first name alone. -/
theorem formatUserName_empty_last_witness :
    formatUserName ⟨[], [⟨7, "Alice", some ""⟩], 1⟩
      ⟨1, 7, "u", "A", some "B", 0, "check_in", "1970-01-01"⟩ = "Alice" :=
  ((formatUserName_empty_last ⟨[], [⟨7, "Alice", some ""⟩], 1⟩
      ⟨1, 7, "u", "A", some "B", 0, "check_in", "1970-01-01"⟩).1
    ⟨7, "Alice", some ""⟩ (by decide)).1 rfl

/-- C8: on a day whose stored events for the identity contain no `check_in`
(even if a `check_out` exists), a successful `MarkAttendance` call takes the
check-in branch: it writes a new `check_in` event and reports success. -/
theorem markAttendance_checkout_only_day (secret : List Char) (db : DB) (u : Int)
    (un fn : String) (ln : Option String) (otp : List Char) (now : Int)
    (hv : validateOTP otp = true) (hV : Verify secret otp now = true)
    (hnoin : db.attendance.any
      (fun r => r.userID == u && r.date == formatDateYMD now && r.recType == "check_in")
      = false)
    (_hhasout : db.attendance.any
      (fun r => r.userID == u && r.date == formatDateYMD now && r.recType == "check_out")
      = true) :
    ∃ r res db',
      MarkAttendance secret db u un fn ln otp now = .ok (res, db') ∧
      res.success = true ∧ res.record = some r ∧ r.recType = "check_in" ∧
      db'.attendance = db.attendance ++ [r] := by
  unfold MarkAttendance markAttendanceWith
  simp only [hv, hV, Bool.not_true, Bool.false_eq_true, if_false, hasCheckedIn_any, hnoin,
    Bool.not_false, if_true, insertAttendance]
  exact ⟨_, _, _, rfl, rfl, rfl, rfl, rfl⟩

/-! ## Helper lemmas: single `MarkAttendance` calls, one per state-machine
branch -/

theorem markAttendance_checkin_step (secret : List Char) (db : DB) (u : Int)
    (un fn : String) (ln : Option String) (otp : List Char) (now : Int)
    (hv : validateOTP otp = true) (hV : Verify secret otp now = true)
    (hnoin : db.attendance.any
      (fun r => r.userID == u && r.date == formatDateYMD now && r.recType == "check_in")
      = false) :
    MarkAttendance secret db u un fn ln otp now =
      .ok ({ success := true,
             message := "✅ **Absen Masuk** tercatat!\n⏰ Waktu: " ++ formatTimeHM now,
             record := some { id := db.nextId, userID := u, username := un,
                              firstName := fn, lastName := ln, timestamp := now,
                              recType := "check_in", date := formatDateYMD now } },
           { attendance := db.attendance ++
               [{ id := db.nextId, userID := u, username := un, firstName := fn,
                  lastName := ln, timestamp := now, recType := "check_in",
                  date := formatDateYMD now }],
             aliases := db.aliases, nextId := db.nextId + 1 }) := by
  unfold MarkAttendance markAttendanceWith
  simp only [hv, hV, Bool.not_true, Bool.false_eq_true, if_false, hasCheckedIn_any, hnoin,
    Bool.not_false, if_true, insertAttendance]

theorem markAttendance_checkout_step (secret : List Char) (db : DB) (u : Int)
    (un fn : String) (ln : Option String) (otp : List Char) (now : Int)
    (cin : AttendanceRecord) (co : Option AttendanceRecord)
    (hv : validateOTP otp = true) (hV : Verify secret otp now = true)
    (hst : getUserAttendanceStatus db u (formatDateYMD now) =
      { hasCheckedIn := true, hasCheckedOut := false,
        checkInRecord := some cin, checkOutRecord := co })
    (hnodup : db.attendance.any
      (fun r => r.userID == u && r.date == formatDateYMD now && r.recType == "check_out")
      = false) :
    MarkAttendance secret db u un fn ln otp now =
      .ok ({ success := true,
             message := "🏠 **Absen Pulang** tercatat!\n⏰ Waktu: " ++ formatTimeHM now ++
               "\n⌛ Durasi kerja: " ++ calculateWorkDuration cin.timestamp now,
             record := some { id := db.nextId, userID := u, username := un,
                              firstName := fn, lastName := ln, timestamp := now,
                              recType := "check_out", date := formatDateYMD now } },
           { attendance := db.attendance ++
               [{ id := db.nextId, userID := u, username := un, firstName := fn,
                  lastName := ln, timestamp := now, recType := "check_out",
                  date := formatDateYMD now }],
             aliases := db.aliases, nextId := db.nextId + 1 }) := by
  unfold MarkAttendance markAttendanceWith
  have hout : db.attendance.any
      (fun r => r.userID == u && r.date == formatDateYMD now && r.recType == "check_out")
      = false := hnodup
  simp only [hv, hV, Bool.not_true, Bool.false_eq_true, if_false, hst, Bool.not_true,
    Bool.not_false, if_true, Option.map_some', Option.getD_some, insertAttendance, hout]

theorem markAttendance_complete_step (secret : List Char) (db : DB) (u : Int)
    (un fn : String) (ln : Option String) (otp : List Char) (now : Int)
    (hv : validateOTP otp = true) (hV : Verify secret otp now = true)
    (hin : db.attendance.any
      (fun r => r.userID == u && r.date == formatDateYMD now && r.recType == "check_in")
      = true)
    (hout : db.attendance.any
      (fun r => r.userID == u && r.date == formatDateYMD now && r.recType == "check_out")
      = true) :
    MarkAttendance secret db u un fn ln otp now =
      .ok ({ success := false,
             message := "❌ Anda sudah absen lengkap hari ini (masuk dan pulang)!",
             record := none }, db) := by
  unfold MarkAttendance markAttendanceWith
  simp only [hv, hV, Bool.not_true, Bool.false_eq_true, if_false, hasCheckedIn_any,
    hasCheckedOut_any, hin, hout, Bool.not_true, if_false]

/-- C8 witness: a day storing only a `check_out` event for identity 7; a valid
code marks a fresh `check_in` and succeeds. -/
theorem markAttendance_checkout_only_day_witness :
    ∃ r res db',
      MarkAttendance "JBSWY3DPEHPK3PXP".toList
        ⟨[⟨1, 7, "u", "B", none, 5, "check_out", "1970-01-01"⟩], [], 2⟩ 7 "u" "B" none
        (generateTOTPForTime "JBSWY3DPEHPK3PXP".toList 0) 0 = .ok (res, db') ∧
      res.success = true ∧ res.record = some r ∧ r.recType = "check_in" ∧
      db'.attendance =
        (⟨[⟨1, 7, "u", "B", none, 5, "check_out", "1970-01-01"⟩], [], 2⟩ : DB).attendance
          ++ [r] := by
  obtain ⟨n, hgen⟩ := generate_eq_sprintf "JBSWY3DPEHPK3PXP".toList 0 (by decide)
  refine markAttendance_checkout_only_day _ _ _ _ _ _ _ _ ?_ ?_ ?_ ?_
  · rw [hgen]; exact validateOTP_sprintf06d n
  · exact verify_generate_self _ _ (by decide)
  · decide
  · decide

/-- C1: for an identity with no prior events on the current day, a first
valid-code call writes a `check_in` event and succeeds; a second same-day
valid-code call writes a `check_out` event and succeeds; a third same-day
valid-code call returns the unsuccessful already-complete result and writes no
new event. -/
theorem markAttendance_daily_sequence (secret : List Char) (db₀ : DB) (u : Int)
    (un fn : String) (ln : Option String) (otp₁ otp₂ otp₃ : List Char)
    (now₁ now₂ now₃ : Int)
    (hclean : db₀.attendance.filter
      (fun r => r.userID == u && r.date == formatDateYMD now₁) = [])
    (hv₁ : validateOTP otp₁ = true) (hV₁ : Verify secret otp₁ now₁ = true)
    (hv₂ : validateOTP otp₂ = true) (hV₂ : Verify secret otp₂ now₂ = true)
    (hv₃ : validateOTP otp₃ = true) (hV₃ : Verify secret otp₃ now₃ = true)
    (hd₂ : formatDateYMD now₂ = formatDateYMD now₁)
    (hd₃ : formatDateYMD now₃ = formatDateYMD now₁) :
    ∃ r₁ r₂ res₁ res₂ db₁ db₂,
      MarkAttendance secret db₀ u un fn ln otp₁ now₁ = .ok (res₁, db₁) ∧
      res₁.success = true ∧ res₁.record = some r₁ ∧ r₁.recType = "check_in" ∧
      db₁.attendance = db₀.attendance ++ [r₁] ∧
      MarkAttendance secret db₁ u un fn ln otp₂ now₂ = .ok (res₂, db₂) ∧
      res₂.success = true ∧ res₂.record = some r₂ ∧ r₂.recType = "check_out" ∧
      db₂.attendance = db₁.attendance ++ [r₂] ∧
      MarkAttendance secret db₂ u un fn ln otp₃ now₃ =
        .ok ({ success := false,
               message := "❌ Anda sudah absen lengkap hari ini (masuk dan pulang)!",
               record := none }, db₂) := by
  have hno : ∀ ty : String, db₀.attendance.any
      (fun r => r.userID == u && r.date == formatDateYMD now₁ && r.recType == ty)
      = false := by
    intro ty
    rw [List.any_eq_false]
    intro r hr
    have hnp := List.filter_eq_nil_iff.mp hclean r hr
    simp only [Bool.and_eq_true] at hnp ⊢
    tauto
  have e₁ := markAttendance_checkin_step secret db₀ u un fn ln otp₁ now₁ hv₁ hV₁
    (hno "check_in")
  have hin₂ : (db₀.attendance ++ [(⟨db₀.nextId, u, un, fn, ln, now₁, "check_in",
      formatDateYMD now₁⟩ : AttendanceRecord)]).any
      (fun r => r.userID == u && r.date == formatDateYMD now₁ && r.recType == "check_in")
      = true := by
    rw [List.any_append, hno]
    simp
  have hout₂ : (db₀.attendance ++ [(⟨db₀.nextId, u, un, fn, ln, now₁, "check_in",
      formatDateYMD now₁⟩ : AttendanceRecord)]).any
      (fun r => r.userID == u && r.date == formatDateYMD now₁ && r.recType == "check_out")
      = false := by
    rw [List.any_append, hno]
    simp [(by decide : (("check_in" : String) == "check_out") = false)]
  have hfilter₁ : (db₀.attendance ++ [(⟨db₀.nextId, u, un, fn, ln, now₁, "check_in",
      formatDateYMD now₁⟩ : AttendanceRecord)]).filter
      (fun r => r.userID == u && r.date == formatDateYMD now₁) =
      [(⟨db₀.nextId, u, un, fn, ln, now₁, "check_in",
        formatDateYMD now₁⟩ : AttendanceRecord)] := by
    rw [List.filter_append, hclean]
    simp
  have hst₂ : getUserAttendanceStatus
      (⟨db₀.attendance ++ [(⟨db₀.nextId, u, un, fn, ln, now₁, "check_in",
        formatDateYMD now₁⟩ : AttendanceRecord)], db₀.aliases, db₀.nextId + 1⟩ : DB)
      u (formatDateYMD now₁) =
      ⟨true, false, some (⟨db₀.nextId, u, un, fn, ln, now₁, "check_in",
        formatDateYMD now₁⟩ : AttendanceRecord), none⟩ := by
    unfold getUserAttendanceStatus getUserAttendanceToday
    simp only [hfilter₁]
    simp [sortByTimestamp, insertByTimestamp]
  have e₂ := markAttendance_checkout_step secret
    (⟨db₀.attendance ++ [(⟨db₀.nextId, u, un, fn, ln, now₁, "check_in",
      formatDateYMD now₁⟩ : AttendanceRecord)], db₀.aliases, db₀.nextId + 1⟩ : DB)
    u un fn ln otp₂ now₂
    (⟨db₀.nextId, u, un, fn, ln, now₁, "check_in", formatDateYMD now₁⟩ : AttendanceRecord)
    none hv₂ hV₂ (by rw [hd₂]; exact hst₂) (by rw [hd₂]; exact hout₂)
  have hin₃ : ((db₀.attendance ++ [(⟨db₀.nextId, u, un, fn, ln, now₁, "check_in",
      formatDateYMD now₁⟩ : AttendanceRecord)]) ++
      [(⟨db₀.nextId + 1, u, un, fn, ln, now₂, "check_out",
        formatDateYMD now₂⟩ : AttendanceRecord)]).any
      (fun r => r.userID == u && r.date == formatDateYMD now₁ && r.recType == "check_in")
      = true := by
    rw [List.any_append, hin₂]
    simp
  have hout₃ : ((db₀.attendance ++ [(⟨db₀.nextId, u, un, fn, ln, now₁, "check_in",
      formatDateYMD now₁⟩ : AttendanceRecord)]) ++
      [(⟨db₀.nextId + 1, u, un, fn, ln, now₂, "check_out",
        formatDateYMD now₂⟩ : AttendanceRecord)]).any
      (fun r => r.userID == u && r.date == formatDateYMD now₁ && r.recType == "check_out")
      = true := by
    rw [List.any_append, hd₂]
    simp
  have e₃ := markAttendance_complete_step secret
    (⟨(db₀.attendance ++ [(⟨db₀.nextId, u, un, fn, ln, now₁, "check_in",
      formatDateYMD now₁⟩ : AttendanceRecord)]) ++
      [(⟨db₀.nextId + 1, u, un, fn, ln, now₂, "check_out",
        formatDateYMD now₂⟩ : AttendanceRecord)],
      db₀.aliases, db₀.nextId + 1 + 1⟩ : DB) u un fn ln otp₃ now₃
    hv₃ hV₃ (by rw [hd₃]; exact hin₃) (by rw [hd₃]; exact hout₃)
  exact ⟨_, _, _, _, _, _, e₁, rfl, rfl, rfl, rfl, e₂, rfl, rfl, rfl, rfl, e₃⟩

/-- C1 witness: identity 7 on an empty store, codes derived from the secret at
instants 0, 600 and 1200 of the same Jakarta day. -/
theorem markAttendance_daily_sequence_witness :
    ∃ r₁ r₂ res₁ res₂ db₁ db₂,
      MarkAttendance "JBSWY3DPEHPK3PXP".toList ⟨[], [], 1⟩ 7 "u" "Ana" none
        (generateTOTPForTime "JBSWY3DPEHPK3PXP".toList 0) 0 = .ok (res₁, db₁) ∧
      res₁.success = true ∧ res₁.record = some r₁ ∧ r₁.recType = "check_in" ∧
      db₁.attendance = (⟨[], [], 1⟩ : DB).attendance ++ [r₁] ∧
      MarkAttendance "JBSWY3DPEHPK3PXP".toList db₁ 7 "u" "Ana" none
        (generateTOTPForTime "JBSWY3DPEHPK3PXP".toList 600) 600 = .ok (res₂, db₂) ∧
      res₂.success = true ∧ res₂.record = some r₂ ∧ r₂.recType = "check_out" ∧
      db₂.attendance = db₁.attendance ++ [r₂] ∧
      MarkAttendance "JBSWY3DPEHPK3PXP".toList db₂ 7 "u" "Ana" none
        (generateTOTPForTime "JBSWY3DPEHPK3PXP".toList 1200) 1200 =
        .ok ({ success := false,
               message := "❌ Anda sudah absen lengkap hari ini (masuk dan pulang)!",
               record := none }, db₂) := by
  obtain ⟨n₁, hg₁⟩ := generate_eq_sprintf "JBSWY3DPEHPK3PXP".toList 0 (by decide)
  obtain ⟨n₂, hg₂⟩ := generate_eq_sprintf "JBSWY3DPEHPK3PXP".toList 600 (by decide)
  obtain ⟨n₃, hg₃⟩ := generate_eq_sprintf "JBSWY3DPEHPK3PXP".toList 1200 (by decide)
  refine markAttendance_daily_sequence _ _ _ _ _ _ _ _ _ _ _ _ rfl ?_ ?_ ?_ ?_ ?_ ?_
    (by decide) (by decide)
  · rw [hg₁]; exact validateOTP_sprintf06d n₁
  · exact verify_generate_self _ _ (by decide)
  · rw [hg₂]; exact validateOTP_sprintf06d n₂
  · exact verify_generate_self _ _ (by decide)
  · rw [hg₃]; exact validateOTP_sprintf06d n₃
  · exact verify_generate_self _ _ (by decide)

/-- C2 counterexample: the store state at the status read is empty, but a
concurrent `check_in` for the same identity and date has landed by the time
the insert runs; the uniqueness constraint fires and `MarkAttendance` returns
a hard error — not the already-complete result the claim asserts. -/
theorem duplicate_insert_counterexample :
    markAttendanceWith "JBSWY3DPEHPK3PXP".toList ⟨[], [], 1⟩
      ⟨[⟨1, 7, "u", "Bob", none, 0, "check_in", "1970-01-01"⟩], [], 2⟩ 7 "u" "Bob" none
      (generateTOTPForTime "JBSWY3DPEHPK3PXP".toList 0) 0 =
      .error (.saveFailed .uniqueConstraint) ∧
    ∀ (res : AttendanceResult) (db' : DB),
      markAttendanceWith "JBSWY3DPEHPK3PXP".toList ⟨[], [], 1⟩
        ⟨[⟨1, 7, "u", "Bob", none, 0, "check_in", "1970-01-01"⟩], [], 2⟩ 7 "u" "Bob" none
        (generateTOTPForTime "JBSWY3DPEHPK3PXP".toList 0) 0 ≠ .ok (res, db') := by
  obtain ⟨n, hgen⟩ := generate_eq_sprintf "JBSWY3DPEHPK3PXP".toList 0 (by decide)
  have hval : validateOTP (generateTOTPForTime "JBSWY3DPEHPK3PXP".toList 0) = true := by
    rw [hgen]; exact validateOTP_sprintf06d n
  have hver : Verify "JBSWY3DPEHPK3PXP".toList
      (generateTOTPForTime "JBSWY3DPEHPK3PXP".toList 0) 0 = true :=
    verify_generate_self _ _ (by decide)
  have hfree : (getUserAttendanceStatus ⟨[], [], 1⟩ 7 (formatDateYMD 0)).hasCheckedIn
      = false := by decide
  have hdup : (⟨[⟨1, 7, "u", "Bob", none, 0, "check_in", "1970-01-01"⟩], [], 2⟩ :
      DB).attendance.any
      (fun r => r.userID == 7 && r.date == formatDateYMD 0 && r.recType == "check_in")
      = true := by decide
  have e : markAttendanceWith "JBSWY3DPEHPK3PXP".toList ⟨[], [], 1⟩
      ⟨[⟨1, 7, "u", "Bob", none, 0, "check_in", "1970-01-01"⟩], [], 2⟩ 7 "u" "Bob" none
      (generateTOTPForTime "JBSWY3DPEHPK3PXP".toList 0) 0 =
      .error (.saveFailed .uniqueConstraint) := by
    unfold markAttendanceWith
    simp only [hval, hver, Bool.not_true, Bool.false_eq_true, if_false, hfree,
      Bool.not_false, if_true, insertAttendance, hdup]
  refine ⟨e, ?_⟩
  intro res db' hok
  rw [e] at hok
  exact absurd hok (by simp)

/-- C2 (amended): when the insert of the decided `check_in` event hits the
store's uniqueness constraint (a concurrent insert won the race), the Go code
propagates the failure as a hard wrapped error to the caller; it does not
reinterpret it as an already-complete result. -/
theorem markAttendance_propagates_duplicate (secret : List Char)
    (readDB insertDB : DB) (u : Int) (un fn : String) (ln : Option String)
    (otp : List Char) (now : Int)
    (hv : validateOTP otp = true) (hV : Verify secret otp now = true)
    (hfree : (getUserAttendanceStatus readDB u (formatDateYMD now)).hasCheckedIn = false)
    (hdup : insertDB.attendance.any
      (fun r => r.userID == u && r.date == formatDateYMD now && r.recType == "check_in")
      = true) :
    markAttendanceWith secret readDB insertDB u un fn ln otp now =
      .error (.saveFailed .uniqueConstraint) := by
  unfold markAttendanceWith
  simp only [hv, hV, Bool.not_true, Bool.false_eq_true, if_false, hfree,
    Bool.not_false, if_true, insertAttendance, hdup]

/-- C2 witness: the amended claim for identity 8, a concurrent `check_in`
already stored at insert time. -/
theorem markAttendance_propagates_duplicate_witness :
    markAttendanceWith "JBSWY3DPEHPK3PXP".toList ⟨[], [], 5⟩
      ⟨[⟨3, 8, "v", "Eve", none, 30, "check_in", "1970-01-01"⟩], [], 4⟩ 8 "v" "Eve" none
      (generateTOTPForTime "JBSWY3DPEHPK3PXP".toList 30) 30 =
      .error (.saveFailed .uniqueConstraint) := by
  obtain ⟨n, hgen⟩ := generate_eq_sprintf "JBSWY3DPEHPK3PXP".toList 30 (by decide)
  refine markAttendance_propagates_duplicate _ _ _ _ _ _ _ _ _ ?_ ?_ ?_ ?_
  · rw [hgen]; exact validateOTP_sprintf06d n
  · exact verify_generate_self _ _ (by decide)
  · decide
  · decide

/-- C7 counterexample: a day with two identities; `[1, 2]` and `[2, 1]` are
both possible iteration orders of the Go map over identity groups, and they
render different report texts — two runs over the same stored set need not
produce identical output. -/
theorem report_order_counterexample :
    ([1, 2] : List Int).Perm (reportKeys (getDailyReport reportTwoUserDB (formatDateYMD 0))) ∧
    ([2, 1] : List Int).Perm (reportKeys (getDailyReport reportTwoUserDB (formatDateYMD 0))) ∧
    GenerateAttendanceReport reportTwoUserDB 0 [1, 2] ≠
      GenerateAttendanceReport reportTwoUserDB 0 [2, 1] :=
  ⟨by decide, by decide, by decide⟩

/-- C7 (amended): the report text is a function of the map iteration order:
runs iterating identity groups in the same order agree, and when at most one
identity has events that day the output is fully deterministic; with two or
more identities, different iteration orders can render different text (see the
counterexample). -/
theorem report_deterministic_single_identity (db : DB) (now : Int)
    (order₁ order₂ : List Int)
    (h₁ : order₁.Perm (reportKeys (getDailyReport db (formatDateYMD now))))
    (h₂ : order₂.Perm (reportKeys (getDailyReport db (formatDateYMD now))))
    (hcard : (reportKeys (getDailyReport db (formatDateYMD now))).length ≤ 1) :
    GenerateAttendanceReport db now order₁ = GenerateAttendanceReport db now order₂ := by
  suffices h : order₁ = order₂ by rw [h]
  rcases hk : reportKeys (getDailyReport db (formatDateYMD now)) with _ | ⟨a, _ | ⟨b, t⟩⟩
  · rw [hk] at h₁ h₂
    rw [h₁.eq_nil, h₂.eq_nil]
  · rw [hk] at h₁ h₂
    rw [List.perm_singleton.mp h₁, List.perm_singleton.mp h₂]
  · rw [hk] at hcard
    simp at hcard

/-- C7 witness: with a single identity the only iteration order is `[1]`, and
the report is deterministic. -/
theorem report_deterministic_single_identity_witness :
    GenerateAttendanceReport reportOneUserDB 0 [1] =
      GenerateAttendanceReport reportOneUserDB 0 [1] :=
  report_deterministic_single_identity reportOneUserDB 0 [1] [1]
    (by decide) (by decide) (by decide)

end AttendanceBot
